import Mathlib

/-!
Verification development for the IntelliNotes summarizer persistence gateway
(`app/utils.py`, class `DBOracle`).

The gateway is embedded shallowly: the Oracle driver is modelled by a fault
schedule (`Faults`) saying which driver step raises, the database by an
explicit `DBState` (sequence counter plus the three tables), and each Python
method by a Lean function from arguments, fault schedule and state to a trace
(`OpTrace`) recording the returned value (which structurally may also be an
escaped exception), the final database state, the emitted log lines, and the
connection lifecycle (whether one was opened, how many times it was closed).

Python truthiness of the optional text arguments (`if input_message:`) is
modelled by `truthyStr`; CLOB handles by `Clob`/`createlob`/`clob_write`;
`created_date or datetime.datetime.now()` by `Option.getD` against an
explicit `now` parameter.
-/

namespace IntelliNotes

/-- Exceptions the driver can raise: `oracledb.DatabaseError` (the class
caught by `get_connection`) and any other run-time exception (caught by the
broad `except Exception` blocks). -/
inductive Exn where
  | dbError : Exn
  | opError : Exn
deriving DecidableEq, Repr

/-- Outcome of a Python call: a normal return value, or an exception that
escaped the callee. -/
inductive PyResult (α : Type) where
  | ok : α → PyResult α
  | raised : Exn → PyResult α
deriving DecidableEq, Repr

/-- A line written through `self.logger`, tagged with its level. -/
inductive LogMsg where
  | info : String → LogMsg
  | warning : String → LogMsg
  | error : String → LogMsg
deriving DecidableEq, Repr

/-- A large-object handle as produced by `connection.createlob`: its
accumulated text content. -/
structure Clob where
  content : String
deriving DecidableEq, Repr

/-- `connection.createlob(oracledb.DB_TYPE_CLOB)`: a fresh, empty CLOB. -/
def createlob : Clob := ⟨""⟩

/-- `clob.write(s)`: append text to the large object. -/
def clob_write (c : Clob) (s : String) : Clob := ⟨c.content ++ s⟩

/-- Python truthiness of an optional string: `None` and `""` are falsy. -/
def truthyStr : Option String → Bool
  | none => false
  | some s => !s.isEmpty

/-- CLOB preparation for one large-text argument of `log_entry`:
`clob = connection.createlob(...)`, `if msg: clob.write(msg)`, and the bind
value `clob if msg else None`.  Returns the CLOB after the conditional write
and the value bound for the column. -/
def prepare_clob (m : Option String) : Clob × Option Clob :=
  let c := if truthyStr m then clob_write createlob (m.getD "") else createlob
  (c, if truthyStr m then some c else none)

/-- One row of `INTELLINOTES_LOG` (the SummaryEvent store). Large-text
columns hold the materialized CLOB content, `none` when NULL was bound. -/
structure LogRow where
  logid : Nat
  event : String
  model : String
  input_message : Option String
  output_message : Option String
  input_tokens : Option Int
  output_tokens : Option Int
  duration : Option Rat
  errormessage : Option String
  userid : Option Int
  user_rating : Option Int
  user_feedback : Option String
  createdate : Nat
  custom_prompt : Option String
deriving DecidableEq, Repr

/-- One row of `IntelliNotes_Feedback` (the FeedbackEntry store). -/
structure FeedbackRow where
  logid : Int
  userid : Int
  user_feedback : String
  user_rating : Int
  created_date : Nat
deriving DecidableEq, Repr

/-- One row of `INTELLINOTES_PROMPTS` (the template store). `prompt` is a
nullable CLOB column. -/
structure PromptRow where
  name : String
  icon : Option String
  description : Option String
  prompt : Option String
deriving DecidableEq, Repr

/-- A template as returned by `fetch_templates` (the Python dict
`{name, icon, description, prompt}` with the prompt CLOB materialized). -/
structure Template where
  name : String
  icon : Option String
  description : Option String
  prompt : Option String
deriving DecidableEq, Repr

/-- The backing store: the `SQ_INTELLINOTES_LOG` sequence's next value and
the three tables. -/
structure DBState where
  seq : Nat
  logTable : List LogRow
  feedbackTable : List FeedbackRow
  promptsTable : List PromptRow
deriving DecidableEq, Repr

/-- Fault schedule for one gateway call: which driver-level step raises.
`connect` raises `oracledb.DatabaseError` from `oracledb.connect`; the
others raise from `connection.cursor()`, the three CLOB preparations,
`cursor.execute`, `connection.commit`, `cursor.fetchall`, and the
`row[3].read()` materialization respectively. -/
structure Faults where
  connect : Bool
  cursor : Bool
  lobInput : Bool
  lobOutput : Bool
  lobCustom : Bool
  execute : Bool
  commit : Bool
  fetch : Bool
  readLob : Bool
deriving DecidableEq, Repr

/-- The fault-free schedule: every driver step succeeds. -/
def noFaults : Faults :=
  ⟨false, false, false, false, false, false, false, false, false⟩

/-- Trace of one gateway call: returned value (or escaped exception), final
store state, log lines in order, whether a connection was opened, and how
many times `connection.close()` ran. -/
structure OpTrace (α : Type) where
  result : PyResult α
  state : DBState
  log : List LogMsg
  opened : Bool
  closes : Nat
deriving DecidableEq, Repr

/-- `DBOracle.get_connection`: `oracledb.connect` wrapped in
`try/except oracledb.DatabaseError`.  Returns (as a `PyResult`, to record
that nothing escapes) either an opened handle (`some ()`) or `none`, with
the log lines it wrote.  Only `oracledb.DatabaseError` is caught; the
driver raises exactly that on a connection failure. -/
def get_connection (f : Faults) : PyResult (Option Unit) × List LogMsg :=
  match (if f.connect then Except.error Exn.dbError else Except.ok ()) with
  | Except.ok _ =>
      (PyResult.ok (some ()), [LogMsg.info "Successfully connected to the database."])
  | Except.error Exn.dbError =>
      (PyResult.ok none, [LogMsg.error "Database connection error"])
  | Except.error e => (PyResult.raised e, [])

/-- Arguments of `DBOracle.log_entry`; Python defaults (`None`) are `none`. -/
structure LogEntryArgs where
  event : String
  model : String
  input_message : Option String
  output_message : Option String
  input_tokens : Option Int
  output_tokens : Option Int
  duration : Option Rat
  error_message : Option String
  user_id : Option Int
  user_rating : Option Int
  user_feedback : Option String
  created_date : Option Nat
  custom_prompt : Option String
deriving DecidableEq, Repr

/-- The row staged by `log_entry`'s INSERT: `LOGID` comes from
`SQ_INTELLINOTES_LOG.NEXTVAL` (the `seq` parameter, never from the
arguments), the three large-text columns from the CLOB bind values, and
`CREATEDATE` from `created_date or datetime.datetime.now()`. -/
def log_entry_row (seq : Nat) (now : Nat) (a : LogEntryArgs) : LogRow :=
  { logid := seq
    event := a.event
    model := a.model
    input_message := (prepare_clob a.input_message).2.map Clob.content
    output_message := (prepare_clob a.output_message).2.map Clob.content
    input_tokens := a.input_tokens
    output_tokens := a.output_tokens
    duration := a.duration
    errormessage := a.error_message
    userid := a.user_id
    user_rating := a.user_rating
    user_feedback := a.user_feedback
    createdate := a.created_date.getD now
    custom_prompt := (prepare_clob a.custom_prompt).2.map Clob.content }

/-- `DBOracle.log_entry`.  Control flow of the source: acquire a connection
(`None` ⇒ log and return `False`); inside `try`: open a cursor, prepare the
three CLOBs, execute the INSERT (which draws `SQ_INTELLINOTES_LOG.NEXTVAL`),
commit, log success and return `True`; `except Exception` logs and returns
`False`; `finally` closes the connection.  The staged row reaches
`logTable` only at the commit step; a commit that raises leaves the
sequence consumed but the table unchanged. -/
def log_entry (f : Faults) (now : Nat) (st : DBState) (a : LogEntryArgs) :
    OpTrace Bool :=
  match get_connection f with
  | (PyResult.raised e, glog) =>
      { result := PyResult.raised e, state := st, log := glog
        opened := false, closes := 0 }
  | (PyResult.ok none, glog) =>
      { result := PyResult.ok false, state := st
        log := glog ++ [LogMsg.error "Failed to log event: Database connection error."]
        opened := false, closes := 0 }
  | (PyResult.ok (some _), glog) =>
      if f.cursor || f.lobInput || f.lobOutput || f.lobCustom then
        { result := PyResult.ok false, state := st
          log := glog ++ [LogMsg.error "Failed to log entry"]
          opened := true, closes := 1 }
      else if f.execute then
        { result := PyResult.ok false, state := st
          log := glog ++ [LogMsg.error "Failed to log entry"]
          opened := true, closes := 1 }
      else if f.commit then
        { result := PyResult.ok false, state := { st with seq := st.seq + 1 }
          log := glog ++ [LogMsg.error "Failed to log entry"]
          opened := true, closes := 1 }
      else
        { result := PyResult.ok true
          state := { st with
                      seq := st.seq + 1
                      logTable := st.logTable ++ [log_entry_row st.seq now a] }
          log := glog ++
            [LogMsg.info ("Logged entry: " ++ a.event ++ " with model " ++ a.model ++ ".")]
          opened := true, closes := 1 }

/-- Arguments of `DBOracle.log_feedback`. -/
structure FeedbackArgs where
  logid : Int
  user_id : Int
  user_feedback : String
  user_rating : Int
  created_date : Option Nat
deriving DecidableEq, Repr

/-- The row staged by `log_feedback`'s INSERT. -/
def log_feedback_row (now : Nat) (a : FeedbackArgs) : FeedbackRow :=
  { logid := a.logid
    userid := a.user_id
    user_feedback := a.user_feedback
    user_rating := a.user_rating
    created_date := a.created_date.getD now }

/-- `DBOracle.log_feedback`: acquire a connection (`None` ⇒ log and return
`False`); inside `try`: cursor, execute the INSERT into
`IntelliNotes_Feedback`, commit, log success, return `True`;
`except Exception` logs and returns `False`; `finally` closes.  No lookup
of `logid` in the log table and no range check of `user_rating` occurs. -/
def log_feedback (f : Faults) (now : Nat) (st : DBState) (a : FeedbackArgs) :
    OpTrace Bool :=
  match get_connection f with
  | (PyResult.raised e, glog) =>
      { result := PyResult.raised e, state := st, log := glog
        opened := false, closes := 0 }
  | (PyResult.ok none, glog) =>
      { result := PyResult.ok false, state := st
        log := glog ++ [LogMsg.error "Failed to log feedback: Database connection error."]
        opened := false, closes := 0 }
  | (PyResult.ok (some _), glog) =>
      if f.cursor || f.execute || f.commit then
        { result := PyResult.ok false, state := st
          log := glog ++ [LogMsg.error "Failed to log feedback"]
          opened := true, closes := 1 }
      else
        { result := PyResult.ok true
          state := { st with feedbackTable := st.feedbackTable ++ [log_feedback_row now a] }
          log := glog ++
            [LogMsg.info ("Feedback logged successfully for LogID: " ++ toString a.logid ++
              ", UserID: " ++ toString a.user_id ++ ".")]
          opened := true, closes := 1 }

/-- Lexicographic comparison of character lists by code point, the binary
collation Oracle uses for `ORDER BY` on a text column. -/
def charListLE : List Char → List Char → Bool
  | [], _ => true
  | _ :: _, [] => false
  | a :: as, b :: bs =>
    if a.toNat < b.toNat then true
    else if b.toNat < a.toNat then false
    else charListLE as bs

/-- Lexicographic order on strings by code point. -/
def strLE (a b : String) : Bool := charListLE a.data b.data

/-- `strLE` as a binary relation on strings. -/
def strLEP (s t : String) : Prop := strLE s t = true

instance : DecidableRel strLEP :=
  fun s t => inferInstanceAs (Decidable (strLE s t = true))

/-- Row order used by `ORDER BY NAME`: compare template rows by `name`. -/
def promptLE (a b : PromptRow) : Prop := strLEP a.name b.name

instance : DecidableRel promptLE :=
  fun a b => inferInstanceAs (Decidable (strLE a.name b.name = true))

/-- `row[3].read() if row[3] is not None else None`: materializing the
nullable `PROMPT` CLOB column of a fetched row yields its text. -/
def materialize_prompt : Option String → Option String
  | none => none
  | some s => some s

/-- The dict built per fetched row:
`{"name": row[0], "icon": row[1], "description": row[2], "prompt": read}`. -/
def template_of_row (r : PromptRow) : Template :=
  { name := r.name
    icon := r.icon
    description := r.description
    prompt := materialize_prompt r.prompt }

/-- The rows produced by the SELECT: the whole of `INTELLINOTES_PROMPTS`
ordered by `NAME` ascending (no WHERE clause, no DISTINCT). -/
def select_prompts (st : DBState) : List PromptRow :=
  List.insertionSort promptLE st.promptsTable

/-- Whether the comprehension in `fetch_templates` calls `.read()` at all:
it does exactly when some fetched row has a non-NULL `PROMPT`. -/
def anyLobRead (st : DBState) : Bool :=
  st.promptsTable.any fun r => r.prompt.isSome

/-- `DBOracle.fetch_templates`: acquire a connection (`None` ⇒ log and
return `[]`); inside `try`: cursor, execute the ordered SELECT, fetch all
rows, build the list of template dicts (materializing each non-NULL prompt
CLOB), log the count (or a warning when empty), return the list;
`except Exception` logs and returns `[]`; `finally` closes. -/
def fetch_templates (f : Faults) (st : DBState) : OpTrace (List Template) :=
  match get_connection f with
  | (PyResult.raised e, glog) =>
      { result := PyResult.raised e, state := st, log := glog
        opened := false, closes := 0 }
  | (PyResult.ok none, glog) =>
      { result := PyResult.ok [], state := st
        log := glog ++ [LogMsg.error "Failed to fetch templates: Database connection error."]
        opened := false, closes := 0 }
  | (PyResult.ok (some _), glog) =>
      if f.cursor || f.execute || f.fetch || (f.readLob && anyLobRead st) then
        { result := PyResult.ok [], state := st
          log := glog ++ [LogMsg.error "Failed to fetch unique templates"]
          opened := true, closes := 1 }
      else
        let templates := (select_prompts st).map template_of_row
        { result := PyResult.ok templates, state := st
          log := glog ++
            [if templates.isEmpty then
              LogMsg.warning "No unique templates found."
            else
              LogMsg.info ("Fetched " ++ toString templates.length ++ " unique templates.")]
          opened := true, closes := 1 }

/-- Whether some driver step inside `log_entry`'s `try` block raises. -/
def entryFault (f : Faults) : Bool :=
  f.cursor || f.lobInput || f.lobOutput || f.lobCustom || f.execute || f.commit

/-- Whether some driver step inside `log_feedback`'s `try` block raises. -/
def feedbackFault (f : Faults) : Bool := f.cursor || f.execute || f.commit

/-- Whether some driver step inside `fetch_templates`'s `try` block raises. -/
def fetchFault (f : Faults) (st : DBState) : Bool :=
  f.cursor || f.execute || f.fetch || (f.readLob && anyLobRead st)

/-- A schedule where `connection.cursor()` raises inside the `try` block. -/
def faultCursor : Faults :=
  ⟨false, true, false, false, false, false, false, false, false⟩

/-- A schedule where `oracledb.connect` raises `oracledb.DatabaseError`. -/
def faultConnect : Faults :=
  ⟨true, false, false, false, false, false, false, false, false⟩

/-- A small concrete store: sequence at 1, one template row, empty tables. -/
def st0 : DBState :=
  ⟨1, [], [], [⟨"Sales", some "S", some "sales meetings", some "You are summarizing a sales meeting."⟩]⟩

/-- Concrete `log_entry` arguments (the repository's own smoke-test call). -/
def sampleEntry : LogEntryArgs :=
  ⟨"Test Log", "Test Model", some "Test input message", some "Test output message",
    some 100, some 50, some 2, none, some 1, none, none, none, some "test prompt"⟩

/-- Concrete `log_feedback` arguments (the repository's own smoke-test call). -/
def sampleFeedback : FeedbackArgs :=
  ⟨5001, 101, "The summary quality exceeded my expectations.", 5, none⟩

/-- `log_entry` arguments whose `input_message` is the empty string. -/
def emptyInputEntry : LogEntryArgs :=
  ⟨"Meeting Summary", "llama3.1", some "", some "A short summary.", some 0, some 4,
    none, none, some 1, none, none, none, none⟩

/-- `log_entry` arguments whose three large-text fields are all the empty
string. -/
def allEmptyEntry : LogEntryArgs :=
  ⟨"Meeting Summary", "llama3.1", some "", some "", some 0, some 0,
    none, none, some 1, none, none, none, some ""⟩

/-- A store whose template table holds the catalog's three template names
from the spec's ordering example. -/
def stThree : DBState :=
  ⟨1, [], [],
   [⟨"Sales", some "S", some "sales meetings", some "Summarize the sales meeting."⟩,
    ⟨"General Meeting", some "G", some "team meetings", some "Summarize the meeting."⟩,
    ⟨"Custom Template", some "C", some "custom", none⟩]⟩

/-- A store with an empty template catalog. -/
def stEmpty : DBState := ⟨1, [], [], []⟩

/-- Feedback whose `logid` matches no SummaryEvent row and whose rating is
outside 1–5. -/
def outOfRangeFeedback : FeedbackArgs :=
  ⟨424242, 101, "off the scale", 99, none⟩

theorem charListLE_total (a b : List Char) :
    charListLE a b = true ∨ charListLE b a = true := by
  induction a generalizing b with
  | nil => left; rfl
  | cons x as ih =>
    cases b with
    | nil => right; rfl
    | cons y bs =>
      simp only [charListLE]
      rcases Nat.lt_trichotomy x.toNat y.toNat with h | h | h
      · left; simp [h]
      · have h1 : ¬ x.toNat < y.toNat := by omega
        have h2 : ¬ y.toNat < x.toNat := by omega
        simpa [h1, h2] using ih bs
      · right; simp [h, (by omega : ¬ x.toNat < y.toNat)]

theorem charListLE_trans (a b c : List Char) (hab : charListLE a b = true)
    (hbc : charListLE b c = true) : charListLE a c = true := by
  induction a generalizing b c with
  | nil => rfl
  | cons x as ih =>
    cases b with
    | nil => exact absurd hab (by simp [charListLE])
    | cons y bs =>
      cases c with
      | nil => exact absurd hbc (by simp [charListLE])
      | cons z cs =>
        simp only [charListLE] at hab hbc ⊢
        rcases Nat.lt_trichotomy x.toNat y.toNat with hxy | hxy | hxy
        · rcases Nat.lt_trichotomy y.toNat z.toNat with hyz | hyz | hyz
          · rw [if_pos (by omega : x.toNat < z.toNat)]
          · rw [if_pos (by omega : x.toNat < z.toNat)]
          · rw [if_neg (by omega : ¬ y.toNat < z.toNat), if_pos hyz] at hbc
            exact absurd hbc (by simp)
        · rw [if_neg (by omega : ¬ x.toNat < y.toNat),
            if_neg (by omega : ¬ y.toNat < x.toNat)] at hab
          rcases Nat.lt_trichotomy y.toNat z.toNat with hyz | hyz | hyz
          · rw [if_pos (by omega : x.toNat < z.toNat)]
          · rw [if_neg (by omega : ¬ y.toNat < z.toNat),
              if_neg (by omega : ¬ z.toNat < y.toNat)] at hbc
            rw [if_neg (by omega : ¬ x.toNat < z.toNat),
              if_neg (by omega : ¬ z.toNat < x.toNat)]
            exact ih bs cs hab hbc
          · rw [if_neg (by omega : ¬ y.toNat < z.toNat), if_pos hyz] at hbc
            exact absurd hbc (by simp)
        · rw [if_neg (by omega : ¬ x.toNat < y.toNat), if_pos hxy] at hab
          exact absurd hab (by simp)

theorem get_connection_of_connect_fail {f : Faults} (h : f.connect = true) :
    get_connection f =
      (PyResult.ok none, [LogMsg.error "Database connection error"]) := by
  simp [get_connection, h]

theorem get_connection_of_connect_ok {f : Faults} (h : f.connect = false) :
    get_connection f =
      (PyResult.ok (some ()),
       [LogMsg.info "Successfully connected to the database."]) := by
  simp [get_connection, h]

theorem log_entry_unreachable_spec {f : Faults} (now : Nat) (st : DBState)
    (a : LogEntryArgs) (h : f.connect = true) :
    log_entry f now st a =
      { result := PyResult.ok false, state := st
        log := [LogMsg.error "Database connection error",
                LogMsg.error "Failed to log event: Database connection error."]
        opened := false, closes := 0 } := by
  simp [log_entry, get_connection_of_connect_fail h]

theorem log_entry_fault_spec {f : Faults} (now : Nat) (st : DBState)
    (a : LogEntryArgs) (h : f.connect = false) (hf : entryFault f = true) :
    (log_entry f now st a).result = PyResult.ok false ∧
    (log_entry f now st a).state.logTable = st.logTable ∧
    (log_entry f now st a).log =
      [LogMsg.info "Successfully connected to the database.",
       LogMsg.error "Failed to log entry"] ∧
    (log_entry f now st a).opened = true ∧
    (log_entry f now st a).closes = 1 := by
  simp only [log_entry, get_connection_of_connect_ok h]
  split_ifs with h1 h2 h3 <;> simp_all [entryFault]

theorem log_entry_success_spec {f : Faults} (now : Nat) (st : DBState)
    (a : LogEntryArgs) (h : f.connect = false) (hf : entryFault f = false) :
    log_entry f now st a =
      { result := PyResult.ok true
        state := { st with
                    seq := st.seq + 1
                    logTable := st.logTable ++ [log_entry_row st.seq now a] }
        log := [LogMsg.info "Successfully connected to the database.",
                LogMsg.info ("Logged entry: " ++ a.event ++ " with model " ++ a.model ++ ".")]
        opened := true, closes := 1 } := by
  simp only [entryFault, Bool.or_eq_false_iff] at hf
  simp [log_entry, get_connection_of_connect_ok h,
    hf.1.1.1.1.1, hf.1.1.1.1.2, hf.1.1.1.2, hf.1.1.2, hf.1.2, hf.2]

theorem log_feedback_unreachable_spec {f : Faults} (now : Nat) (st : DBState)
    (a : FeedbackArgs) (h : f.connect = true) :
    log_feedback f now st a =
      { result := PyResult.ok false, state := st
        log := [LogMsg.error "Database connection error",
                LogMsg.error "Failed to log feedback: Database connection error."]
        opened := false, closes := 0 } := by
  simp [log_feedback, get_connection_of_connect_fail h]

theorem log_feedback_fault_spec {f : Faults} (now : Nat) (st : DBState)
    (a : FeedbackArgs) (h : f.connect = false) (hf : feedbackFault f = true) :
    log_feedback f now st a =
      { result := PyResult.ok false, state := st
        log := [LogMsg.info "Successfully connected to the database.",
                LogMsg.error "Failed to log feedback"]
        opened := true, closes := 1 } := by
  simp only [log_feedback, get_connection_of_connect_ok h]
  split_ifs with h1 <;> simp_all [feedbackFault]

theorem log_feedback_success_spec {f : Faults} (now : Nat) (st : DBState)
    (a : FeedbackArgs) (h : f.connect = false) (hf : feedbackFault f = false) :
    log_feedback f now st a =
      { result := PyResult.ok true
        state := { st with feedbackTable := st.feedbackTable ++ [log_feedback_row now a] }
        log := [LogMsg.info "Successfully connected to the database.",
                LogMsg.info ("Feedback logged successfully for LogID: " ++ toString a.logid ++
                  ", UserID: " ++ toString a.user_id ++ ".")]
        opened := true, closes := 1 } := by
  simp only [feedbackFault, Bool.or_eq_false_iff] at hf
  simp [log_feedback, get_connection_of_connect_ok h, hf.1.1, hf.1.2, hf.2]

theorem fetch_templates_unreachable_spec {f : Faults} (st : DBState)
    (h : f.connect = true) :
    fetch_templates f st =
      { result := PyResult.ok [], state := st
        log := [LogMsg.error "Database connection error",
                LogMsg.error "Failed to fetch templates: Database connection error."]
        opened := false, closes := 0 } := by
  simp [fetch_templates, get_connection_of_connect_fail h]

theorem fetch_templates_fault_spec {f : Faults} (st : DBState)
    (h : f.connect = false) (hf : fetchFault f st = true) :
    fetch_templates f st =
      { result := PyResult.ok [], state := st
        log := [LogMsg.info "Successfully connected to the database.",
                LogMsg.error "Failed to fetch unique templates"]
        opened := true, closes := 1 } := by
  simp only [fetch_templates, get_connection_of_connect_ok h]
  split_ifs with h1 <;> simp_all [fetchFault]

theorem fetch_templates_success_spec {f : Faults} (st : DBState)
    (h : f.connect = false) (hf : fetchFault f st = false) :
    fetch_templates f st =
      { result := PyResult.ok ((select_prompts st).map template_of_row)
        state := st
        log := [LogMsg.info "Successfully connected to the database.",
                if ((select_prompts st).map template_of_row).isEmpty then
                  LogMsg.warning "No unique templates found."
                else
                  LogMsg.info ("Fetched " ++
                    toString ((select_prompts st).map template_of_row).length ++
                    " unique templates.")]
        opened := true, closes := 1 } := by
  simp only [fetchFault, Bool.or_eq_false_iff] at hf
  simp [fetch_templates, get_connection_of_connect_ok h, hf.1.1.1, hf.1.1.2, hf.1.2, hf.2]

/-- C1: for every input and every internal exception raised during
connection use, large-object preparation, statement execution, or commit,
each of the three gateway operations catches the exception, logs it, and
returns its failure value (`False` for the two writes, `[]` for the
listing); no exception ever escapes any of the three operations. -/
theorem claim1_gateway_failures_contained (f : Faults) (now : Nat) (st : DBState)
    (a : LogEntryArgs) (b : FeedbackArgs) :
    ((∃ r, (log_entry f now st a).result = PyResult.ok r) ∧
     (∃ r, (log_feedback f now st b).result = PyResult.ok r) ∧
     (∃ r, (fetch_templates f st).result = PyResult.ok r)) ∧
    (f.connect = false →
      (entryFault f = true →
        (log_entry f now st a).result = PyResult.ok false ∧
        LogMsg.error "Failed to log entry" ∈ (log_entry f now st a).log) ∧
      (feedbackFault f = true →
        (log_feedback f now st b).result = PyResult.ok false ∧
        LogMsg.error "Failed to log feedback" ∈ (log_feedback f now st b).log) ∧
      (fetchFault f st = true →
        (fetch_templates f st).result = PyResult.ok [] ∧
        LogMsg.error "Failed to fetch unique templates" ∈ (fetch_templates f st).log)) := by
  constructor
  · refine ⟨?_, ?_, ?_⟩
    · cases hc : f.connect
      · cases hf : entryFault f
        · rw [log_entry_success_spec now st a hc hf]; exact ⟨true, rfl⟩
        · exact ⟨false, (log_entry_fault_spec now st a hc hf).1⟩
      · rw [log_entry_unreachable_spec now st a hc]; exact ⟨false, rfl⟩
    · cases hc : f.connect
      · cases hf : feedbackFault f
        · rw [log_feedback_success_spec now st b hc hf]; exact ⟨true, rfl⟩
        · rw [log_feedback_fault_spec now st b hc hf]; exact ⟨false, rfl⟩
      · rw [log_feedback_unreachable_spec now st b hc]; exact ⟨false, rfl⟩
    · cases hc : f.connect
      · cases hf : fetchFault f st
        · rw [fetch_templates_success_spec st hc hf]; exact ⟨_, rfl⟩
        · rw [fetch_templates_fault_spec st hc hf]; exact ⟨[], rfl⟩
      · rw [fetch_templates_unreachable_spec st hc]; exact ⟨[], rfl⟩
  · intro hc
    refine ⟨fun hf => ?_, fun hf => ?_, fun hf => ?_⟩
    · obtain ⟨h1, _, h3, _, _⟩ := log_entry_fault_spec now st a hc hf
      exact ⟨h1, by rw [h3]; simp⟩
    · rw [log_feedback_fault_spec now st b hc hf]
      exact ⟨rfl, by simp⟩
    · rw [fetch_templates_fault_spec st hc hf]
      exact ⟨rfl, by simp⟩

theorem claim1_gateway_failures_contained_witness :
    faultCursor.connect = false ∧ entryFault faultCursor = true ∧
    feedbackFault faultCursor = true ∧ fetchFault faultCursor st0 = true ∧
    (((log_entry faultCursor 7 st0 sampleEntry).result = PyResult.ok false ∧
       LogMsg.error "Failed to log entry" ∈ (log_entry faultCursor 7 st0 sampleEntry).log) ∧
     ((log_feedback faultCursor 7 st0 sampleFeedback).result = PyResult.ok false ∧
       LogMsg.error "Failed to log feedback" ∈ (log_feedback faultCursor 7 st0 sampleFeedback).log) ∧
     ((fetch_templates faultCursor st0).result = PyResult.ok [] ∧
       LogMsg.error "Failed to fetch unique templates" ∈ (fetch_templates faultCursor st0).log)) :=
  ⟨by decide, by decide, by decide, by decide,
    have h :=
      (claim1_gateway_failures_contained faultCursor 7 st0 sampleEntry sampleFeedback).2
        (by decide)
    ⟨h.1 (by decide), h.2.1 (by decide), h.2.2 (by decide)⟩⟩

/-- C2: for every credential triple and every driver-level connection
failure, `get_connection` logs the error and returns `None`; it never
raises past its boundary, so every caller receives either an open
connection handle or `None`. -/
theorem claim2_get_connection_never_raises (f : Faults) :
    (∃ r, (get_connection f).1 = PyResult.ok r) ∧
    (f.connect = true →
      (get_connection f).1 = PyResult.ok none ∧
      LogMsg.error "Database connection error" ∈ (get_connection f).2) ∧
    (f.connect = false → (get_connection f).1 = PyResult.ok (some ())) := by
  refine ⟨?_, fun hc => ?_, fun hc => ?_⟩
  · cases hc : f.connect
    · rw [get_connection_of_connect_ok hc]; exact ⟨some (), rfl⟩
    · rw [get_connection_of_connect_fail hc]; exact ⟨none, rfl⟩
  · rw [get_connection_of_connect_fail hc]; exact ⟨rfl, by simp⟩
  · rw [get_connection_of_connect_ok hc]

theorem claim2_get_connection_never_raises_witness :
    faultConnect.connect = true ∧
    ((get_connection faultConnect).1 = PyResult.ok none ∧
      LogMsg.error "Database connection error" ∈ (get_connection faultConnect).2) :=
  ⟨by decide, ((claim2_get_connection_never_raises faultConnect).2.1 (by decide))⟩

/-- C3: when the database is unreachable, `log_entry` returns failure and
writes nothing; with a connection, it returns success exactly when every
step up to and including the commit succeeds, and any failure leaves the
SummaryEvent store unchanged by the call. -/
theorem claim3_record_event_atomic (f : Faults) (now : Nat) (st : DBState)
    (a : LogEntryArgs) :
    (f.connect = true →
      (log_entry f now st a).result = PyResult.ok false ∧
      (log_entry f now st a).state = st) ∧
    ((log_entry f now st a).result = PyResult.ok true ↔
      f.connect = false ∧ entryFault f = false) ∧
    ((log_entry f now st a).result ≠ PyResult.ok true →
      (log_entry f now st a).state.logTable = st.logTable) ∧
    ((log_entry f now st a).result = PyResult.ok true →
      (log_entry f now st a).state.logTable =
        st.logTable ++ [log_entry_row st.seq now a]) := by
  refine ⟨fun hc => ?_, ?_, ?_, ?_⟩
  · rw [log_entry_unreachable_spec now st a hc]; exact ⟨rfl, rfl⟩
  · constructor
    · intro hr
      cases hc : f.connect
      · cases hf : entryFault f
        · exact ⟨rfl, rfl⟩
        · rw [(log_entry_fault_spec now st a hc hf).1] at hr; cases hr
      · rw [log_entry_unreachable_spec now st a hc] at hr; cases hr
    · rintro ⟨hc, hf⟩
      rw [log_entry_success_spec now st a hc hf]
  · intro hr
    cases hc : f.connect
    · cases hf : entryFault f
      · rw [log_entry_success_spec now st a hc hf] at hr; cases hr rfl
      · exact (log_entry_fault_spec now st a hc hf).2.1
    · rw [log_entry_unreachable_spec now st a hc]
  · intro hr
    cases hc : f.connect
    · cases hf : entryFault f
      · rw [log_entry_success_spec now st a hc hf]
      · rw [(log_entry_fault_spec now st a hc hf).1] at hr; cases hr
    · rw [log_entry_unreachable_spec now st a hc] at hr; cases hr

theorem claim3_record_event_atomic_witness :
    faultConnect.connect = true ∧
    ((log_entry faultConnect 7 st0 sampleEntry).result = PyResult.ok false ∧
      (log_entry faultConnect 7 st0 sampleEntry).state = st0) ∧
    ((log_entry noFaults 7 st0 sampleEntry).result = PyResult.ok true ∧
      (log_entry noFaults 7 st0 sampleEntry).state.logTable =
        st0.logTable ++ [log_entry_row st0.seq 7 sampleEntry]) :=
  ⟨by decide,
    (claim3_record_event_atomic faultConnect 7 st0 sampleEntry).1 (by decide),
    ⟨((claim3_record_event_atomic noFaults 7 st0 sampleEntry).2.1).2 ⟨rfl, rfl⟩,
      ((claim3_record_event_atomic noFaults 7 st0 sampleEntry).2.2.2) (by decide)⟩⟩

/-- C4: every call to any of the three gateway operations that successfully
acquires a connection closes that connection exactly once before the call
returns, on every exit path. -/
theorem claim4_connection_closed_exactly_once (f : Faults) (now : Nat)
    (st : DBState) (a : LogEntryArgs) (b : FeedbackArgs) (h : f.connect = false) :
    ((log_entry f now st a).opened = true ∧ (log_entry f now st a).closes = 1) ∧
    ((log_feedback f now st b).opened = true ∧ (log_feedback f now st b).closes = 1) ∧
    ((fetch_templates f st).opened = true ∧ (fetch_templates f st).closes = 1) := by
  refine ⟨?_, ?_, ?_⟩
  · cases hf : entryFault f
    · rw [log_entry_success_spec now st a h hf]; exact ⟨rfl, rfl⟩
    · obtain ⟨_, _, _, h4, h5⟩ := log_entry_fault_spec now st a h hf
      exact ⟨h4, h5⟩
  · cases hf : feedbackFault f
    · rw [log_feedback_success_spec now st b h hf]; exact ⟨rfl, rfl⟩
    · rw [log_feedback_fault_spec now st b h hf]; exact ⟨rfl, rfl⟩
  · cases hf : fetchFault f st
    · rw [fetch_templates_success_spec st h hf]; exact ⟨rfl, rfl⟩
    · rw [fetch_templates_fault_spec st h hf]; exact ⟨rfl, rfl⟩

theorem claim4_connection_closed_exactly_once_witness :
    faultCursor.connect = false ∧
    (((log_entry faultCursor 7 st0 sampleEntry).opened = true ∧
       (log_entry faultCursor 7 st0 sampleEntry).closes = 1) ∧
     ((log_feedback faultCursor 7 st0 sampleFeedback).opened = true ∧
       (log_feedback faultCursor 7 st0 sampleFeedback).closes = 1) ∧
     ((fetch_templates faultCursor st0).opened = true ∧
       (fetch_templates faultCursor st0).closes = 1)) :=
  ⟨by decide,
    claim4_connection_closed_exactly_once faultCursor 7 st0 sampleEntry sampleFeedback
      (by decide)⟩

theorem prepare_clob_bind_eq {m : Option String} (h : m ≠ some "") :
    (prepare_clob m).2.map Clob.content = m := by
  cases m with
  | none => rfl
  | some s =>
    have hs : s.isEmpty = false := by
      cases he : s.isEmpty
      · rfl
      · exact absurd (congrArg some ((String.isEmpty_iff s).mp he)) h
    simp [prepare_clob, truthyStr, clob_write, createlob, hs]

theorem map_name_orderedInsert (r : PromptRow) (l : List PromptRow) :
    (List.orderedInsert promptLE r l).map PromptRow.name =
      List.orderedInsert strLEP r.name (l.map PromptRow.name) := by
  induction l with
  | nil => rfl
  | cons x xs ih =>
    simp only [List.map, List.orderedInsert]
    split_ifs with h1 h2 h2
    · simp
    · exact absurd h1 h2
    · exact absurd h2 h1
    · simp [ih]

theorem map_name_insertionSort (l : List PromptRow) :
    (List.insertionSort promptLE l).map PromptRow.name =
      List.insertionSort strLEP (l.map PromptRow.name) := by
  induction l with
  | nil => rfl
  | cons x xs ih =>
    simp only [List.insertionSort, List.map]
    rw [map_name_orderedInsert, ih]

/-- C5 is false as stated: `log_entry` succeeds on an input whose
`input_message` is the empty string, but the stored row holds NULL for
`INPUT_MESSAGE`, not the supplied empty text — the round-trip is not
byte-for-byte for this valid input. -/
theorem claim5_roundtrip_counterexample :
    emptyInputEntry.input_message = some "" ∧
    (log_entry noFaults 7 stEmpty emptyInputEntry).result = PyResult.ok true ∧
    (log_entry noFaults 7 stEmpty emptyInputEntry).state.logTable.map
      LogRow.input_message = [none] ∧
    ¬ (log_entry noFaults 7 stEmpty emptyInputEntry).state.logTable.map
      LogRow.input_message = [emptyInputEntry.input_message] := by
  decide

/-- C5 (amended): for all valid inputs whose supplied large-text fields are
non-empty (or absent), a successful `log_entry` stores a row in which every
supplied field — including the large-text fields — matches the supplied
value byte-for-byte; an empty-string large-text field is instead stored as
NULL. -/
theorem claim5_roundtrip_amended (now : Nat) (st : DBState) (a : LogEntryArgs)
    (h1 : a.input_message ≠ some "") (h2 : a.output_message ≠ some "")
    (h3 : a.custom_prompt ≠ some "") :
    (log_entry noFaults now st a).result = PyResult.ok true ∧
    (log_entry noFaults now st a).state.logTable = st.logTable ++
      [{ logid := st.seq
         event := a.event
         model := a.model
         input_message := a.input_message
         output_message := a.output_message
         input_tokens := a.input_tokens
         output_tokens := a.output_tokens
         duration := a.duration
         errormessage := a.error_message
         userid := a.user_id
         user_rating := a.user_rating
         user_feedback := a.user_feedback
         createdate := a.created_date.getD now
         custom_prompt := a.custom_prompt }] := by
  rw [@log_entry_success_spec noFaults now st a rfl rfl]
  refine ⟨rfl, ?_⟩
  simp only [log_entry_row, prepare_clob_bind_eq h1, prepare_clob_bind_eq h2,
    prepare_clob_bind_eq h3]

theorem claim5_roundtrip_amended_witness :
    sampleEntry.input_message ≠ some "" ∧ sampleEntry.output_message ≠ some "" ∧
    sampleEntry.custom_prompt ≠ some "" ∧
    ((log_entry noFaults 7 st0 sampleEntry).result = PyResult.ok true ∧
     (log_entry noFaults 7 st0 sampleEntry).state.logTable = st0.logTable ++
       [{ logid := st0.seq
          event := sampleEntry.event
          model := sampleEntry.model
          input_message := sampleEntry.input_message
          output_message := sampleEntry.output_message
          input_tokens := sampleEntry.input_tokens
          output_tokens := sampleEntry.output_tokens
          duration := sampleEntry.duration
          errormessage := sampleEntry.error_message
          userid := sampleEntry.user_id
          user_rating := sampleEntry.user_rating
          user_feedback := sampleEntry.user_feedback
          createdate := sampleEntry.created_date.getD 7
          custom_prompt := sampleEntry.custom_prompt }]) :=
  ⟨by decide, by decide, by decide,
    claim5_roundtrip_amended 7 st0 sampleEntry (by decide) (by decide) (by decide)⟩

/-- C6: the `logId` of every row inserted by `log_entry` is drawn from the
store's sequence (the state's counter, which the insert advances), and is a
function of the sequence alone — it does not depend on the caller-supplied
arguments. -/
theorem claim6_logid_from_sequence (f : Faults) (now : Nat) (st : DBState)
    (a : LogEntryArgs) (h : (log_entry f now st a).result = PyResult.ok true) :
    ((log_entry f now st a).state.logTable =
      st.logTable ++ [log_entry_row st.seq now a] ∧
     (log_entry_row st.seq now a).logid = st.seq ∧
     (log_entry f now st a).state.seq = st.seq + 1) ∧
    (∀ (seq now' : Nat) (a' a'' : LogEntryArgs),
      (log_entry_row seq now' a').logid = (log_entry_row seq now' a'').logid) := by
  refine ⟨?_, fun seq now' a' a'' => rfl⟩
  cases hc : f.connect
  · cases hf : entryFault f
    · rw [log_entry_success_spec now st a hc hf]
      exact ⟨rfl, rfl, rfl⟩
    · rw [(log_entry_fault_spec now st a hc hf).1] at h; cases h
  · rw [log_entry_unreachable_spec now st a hc] at h; cases h

theorem claim6_logid_from_sequence_witness :
    (log_entry noFaults 7 st0 sampleEntry).result = PyResult.ok true ∧
    ((log_entry noFaults 7 st0 sampleEntry).state.logTable =
      st0.logTable ++ [log_entry_row st0.seq 7 sampleEntry] ∧
     (log_entry_row st0.seq 7 sampleEntry).logid = st0.seq ∧
     (log_entry noFaults 7 st0 sampleEntry).state.seq = st0.seq + 1) :=
  ⟨by decide,
    (claim6_logid_from_sequence noFaults 7 st0 sampleEntry (by decide)).1⟩

/-- C7: with a working store, `fetch_templates` returns exactly the whole
template table ordered by `name` ascending, with every prompt CLOB
materialized into plain text; an empty catalog yields `[]` rather than an
error; and for templates named "Sales", "General Meeting",
"Custom Template" the returned order is exactly "Custom Template",
"General Meeting", "Sales". -/
theorem claim7_fetch_templates_sorted (st : DBState) :
    ∃ l, (fetch_templates noFaults st).result = PyResult.ok l ∧
      l = (select_prompts st).map template_of_row ∧
      List.Sorted (fun t u : Template => strLEP t.name u.name) l ∧
      l.Perm (st.promptsTable.map template_of_row) ∧
      l.map Template.prompt =
        (select_prompts st).map (fun r => materialize_prompt r.prompt) ∧
      (st.promptsTable = [] → l = []) ∧
      (st.promptsTable.map PromptRow.name =
          ["Sales", "General Meeting", "Custom Template"] →
        l.map Template.name = ["Custom Template", "General Meeting", "Sales"]) := by
  haveI : IsTotal PromptRow promptLE :=
    ⟨fun a b => charListLE_total a.name.data b.name.data⟩
  haveI : IsTrans PromptRow promptLE :=
    ⟨fun _ _ _ h h' => charListLE_trans _ _ _ h h'⟩
  refine ⟨(select_prompts st).map template_of_row, ?_, rfl, ?_, ?_, ?_, ?_, ?_⟩
  · rw [@fetch_templates_success_spec noFaults st rfl rfl]
  · exact List.Pairwise.map template_of_row (fun a b hab => hab)
      (List.sorted_insertionSort promptLE st.promptsTable)
  · exact (List.perm_insertionSort promptLE st.promptsTable).map template_of_row
  · rw [List.map_map]; rfl
  · intro h
    simp [select_prompts, h]
  · intro h
    rw [List.map_map]
    have hcomp : (Template.name ∘ template_of_row) = PromptRow.name := rfl
    rw [hcomp]
    unfold select_prompts
    rw [map_name_insertionSort, h]
    decide

theorem claim7_fetch_templates_sorted_witness :
    stThree.promptsTable.map PromptRow.name =
      ["Sales", "General Meeting", "Custom Template"] ∧
    (∃ l, (fetch_templates noFaults stThree).result = PyResult.ok l ∧
      l.map Template.name = ["Custom Template", "General Meeting", "Sales"]) ∧
    stEmpty.promptsTable = [] ∧
    (∃ l, (fetch_templates noFaults stEmpty).result = PyResult.ok l ∧ l = []) := by
  refine ⟨by decide, ?_, rfl, ?_⟩
  · obtain ⟨l, hres, _, _, _, _, _, hord⟩ := claim7_fetch_templates_sorted stThree
    exact ⟨l, hres, hord (by decide)⟩
  · obtain ⟨l, hres, _, _, _, _, hemp, _⟩ := claim7_fetch_templates_sorted stEmpty
    exact ⟨l, hres, hemp rfl⟩

/-- C8: every read failure in `fetch_templates` — connection unavailable,
query error, fetch error, or prompt materialization error — is logged and
yields the empty sequence, the very result an empty catalog produces; only
the log lines differ (error lines on failure, a warning on an empty
catalog). -/
theorem claim8_read_failure_yields_empty (f : Faults) (st : DBState) :
    (f.connect = true →
      (fetch_templates f st).result = PyResult.ok [] ∧
      LogMsg.error "Failed to fetch templates: Database connection error." ∈
        (fetch_templates f st).log ∧
      (fetch_templates f st).result =
        (fetch_templates noFaults ⟨st.seq, st.logTable, st.feedbackTable, []⟩).result) ∧
    (f.connect = false → fetchFault f st = true →
      (fetch_templates f st).result = PyResult.ok [] ∧
      LogMsg.error "Failed to fetch unique templates" ∈ (fetch_templates f st).log ∧
      (fetch_templates f st).result =
        (fetch_templates noFaults ⟨st.seq, st.logTable, st.feedbackTable, []⟩).result) ∧
    ((fetch_templates noFaults ⟨st.seq, st.logTable, st.feedbackTable, []⟩).result =
      PyResult.ok [] ∧
     LogMsg.warning "No unique templates found." ∈
      (fetch_templates noFaults ⟨st.seq, st.logTable, st.feedbackTable, []⟩).log) := by
  have hempty :
      fetch_templates noFaults ⟨st.seq, st.logTable, st.feedbackTable, []⟩ =
        { result := PyResult.ok [], state := ⟨st.seq, st.logTable, st.feedbackTable, []⟩
          log := [LogMsg.info "Successfully connected to the database.",
                  LogMsg.warning "No unique templates found."]
          opened := true, closes := 1 } := by
    rw [@fetch_templates_success_spec noFaults _ rfl rfl]; rfl
  refine ⟨fun hc => ?_, fun hc hf => ?_, ?_⟩
  · rw [fetch_templates_unreachable_spec st hc, hempty]
    exact ⟨rfl, by simp, rfl⟩
  · rw [fetch_templates_fault_spec st hc hf, hempty]
    exact ⟨rfl, by simp, rfl⟩
  · rw [hempty]
    exact ⟨rfl, by simp⟩

theorem claim8_read_failure_yields_empty_witness :
    faultConnect.connect = true ∧
    ((fetch_templates faultConnect stThree).result = PyResult.ok [] ∧
      LogMsg.error "Failed to fetch templates: Database connection error." ∈
        (fetch_templates faultConnect stThree).log ∧
      (fetch_templates faultConnect stThree).result =
        (fetch_templates noFaults
          ⟨stThree.seq, stThree.logTable, stThree.feedbackTable, []⟩).result) ∧
    faultCursor.connect = false ∧ fetchFault faultCursor stThree = true ∧
    ((fetch_templates faultCursor stThree).result = PyResult.ok [] ∧
      LogMsg.error "Failed to fetch unique templates" ∈
        (fetch_templates faultCursor stThree).log ∧
      (fetch_templates faultCursor stThree).result =
        (fetch_templates noFaults
          ⟨stThree.seq, stThree.logTable, stThree.feedbackTable, []⟩).result) :=
  ⟨by decide,
    (claim8_read_failure_yields_empty faultConnect stThree).1 (by decide),
    by decide, by decide,
    (claim8_read_failure_yields_empty faultCursor stThree).2.1 (by decide) (by decide)⟩

/-- C9: `log_feedback` performs no referential check that `logid` exists in
the SummaryEvent store and no range check on `user_rating`: with the store
working, the insert succeeds and appends the row even when `logid` matches
no SummaryEvent row and `user_rating` lies outside 1–5. -/
theorem claim9_feedback_unchecked (now : Nat) (st : DBState) (a : FeedbackArgs)
    (_h1 : ∀ r ∈ st.logTable, (r.logid : Int) ≠ a.logid)
    (_h2 : a.user_rating < 1 ∨ 5 < a.user_rating) :
    (log_feedback noFaults now st a).result = PyResult.ok true ∧
    (log_feedback noFaults now st a).state.feedbackTable =
      st.feedbackTable ++ [log_feedback_row now a] := by
  rw [@log_feedback_success_spec noFaults now st a rfl rfl]
  exact ⟨rfl, rfl⟩

theorem claim9_feedback_unchecked_witness :
    (∀ r ∈ st0.logTable, (r.logid : Int) ≠ outOfRangeFeedback.logid) ∧
    (outOfRangeFeedback.user_rating < 1 ∨ 5 < outOfRangeFeedback.user_rating) ∧
    ((log_feedback noFaults 7 st0 outOfRangeFeedback).result = PyResult.ok true ∧
     (log_feedback noFaults 7 st0 outOfRangeFeedback).state.feedbackTable =
       st0.feedbackTable ++ [log_feedback_row 7 outOfRangeFeedback]) :=
  ⟨by decide, by decide,
    claim9_feedback_unchecked 7 st0 outOfRangeFeedback (by decide) (by decide)⟩

/-- C10: when a large-text argument of `log_entry` is the empty string, the
created CLOB is never written and NULL (`none`) is bound for that column,
so the empty string is persisted as an absent value in the stored row, not
as empty text. -/
theorem claim10_empty_string_persisted_as_null (now : Nat) (st : DBState)
    (a : LogEntryArgs) :
    (prepare_clob (some "")).1 = createlob ∧
    (prepare_clob (some "")).2 = none ∧
    (log_entry noFaults now st a).state.logTable =
      st.logTable ++ [log_entry_row st.seq now a] ∧
    (a.input_message = some "" → (log_entry_row st.seq now a).input_message = none) ∧
    (a.output_message = some "" → (log_entry_row st.seq now a).output_message = none) ∧
    (a.custom_prompt = some "" → (log_entry_row st.seq now a).custom_prompt = none) := by
  refine ⟨rfl, rfl, ?_, fun h => ?_, fun h => ?_, fun h => ?_⟩
  · rw [@log_entry_success_spec noFaults now st a rfl rfl]
  · have hproj : (log_entry_row st.seq now a).input_message =
        (prepare_clob a.input_message).2.map Clob.content := rfl
    rw [hproj, h]; decide
  · have hproj : (log_entry_row st.seq now a).output_message =
        (prepare_clob a.output_message).2.map Clob.content := rfl
    rw [hproj, h]; decide
  · have hproj : (log_entry_row st.seq now a).custom_prompt =
        (prepare_clob a.custom_prompt).2.map Clob.content := rfl
    rw [hproj, h]; decide

theorem claim10_empty_string_persisted_as_null_witness :
    allEmptyEntry.input_message = some "" ∧
    allEmptyEntry.output_message = some "" ∧
    allEmptyEntry.custom_prompt = some "" ∧
    ((log_entry noFaults 7 stEmpty allEmptyEntry).state.logTable =
      stEmpty.logTable ++ [log_entry_row stEmpty.seq 7 allEmptyEntry] ∧
     (log_entry_row stEmpty.seq 7 allEmptyEntry).input_message = none ∧
     (log_entry_row stEmpty.seq 7 allEmptyEntry).output_message = none ∧
     (log_entry_row stEmpty.seq 7 allEmptyEntry).custom_prompt = none) :=
  have h := claim10_empty_string_persisted_as_null 7 stEmpty allEmptyEntry
  ⟨by decide, by decide, by decide,
    ⟨h.2.2.1, h.2.2.2.1 (by decide), h.2.2.2.2.1 (by decide), h.2.2.2.2.2 (by decide)⟩⟩

end IntelliNotes
